import Mathlib

/-!
Verification of the MicroPython MiFlora BLE driver (miflora.py).

The file shallowly embeds the driver: the `MiFlora` record mirrors the
attributes set up by `MiFlora._reset`, the event dispatcher `MiFlora._irq`
becomes the step function `irqStep`, and the Python methods installed as
completion callbacks (`scan_done`, `read_firmware_done`, `mode_change_done`,
`read_sensor_done`) are modelled as tags that the dispatcher runs.  Calls
into the external `ubluetooth.BLE` host stack and callback invocations are
recorded as an effect trace.  Mid-method Python exceptions are modelled by
returning the partially mutated record together with the exception kind.

Module configuration constants are fixed at their values in the source:
AUTO_MODE = 1, _DISCOVER_SERVICES = False, _DISCOVER_CHARACTERISTICS = False.

Python floats are modelled as exact rationals; `str(bytes, 'UTF-8')` is
modelled on the ASCII subset (every payload of interest is ASCII).
-/

namespace Miflora

/-- Python exception kinds raised by the modelled code paths. -/
inductive PyErr
  | indexError
  | structError
  | unicodeError
  | attributeError
deriving DecidableEq

/-! States of the state machine (miflora.py lines 204-211). -/

def _S_INIT : Nat := 0

def _S_SCAN_DONE : Nat := 1

def _S_SERVICE_DONE : Nat := 2

def _S_CHARACTERISTIC_DONE : Nat := 3

def _S_READ_FIRMWARE_DONE : Nat := 4

def _S_MODE_CHANGE_DONE : Nat := 5

def _S_READ_SENSOR_DONE : Nat := 6

/-! Value handles and payloads specific to MiFlora (lines 198-202). -/

def _HANDLE_READ_VERSION_BATTERY : Nat := 0x38

def _HANDLE_WRITE_MODE_CHANGE : Nat := 0x33

def _DATA_MODE_CHANGE : List Nat := [0xA0, 0x1F]

def _HANDLE_READ_SENSOR_DATA : Nat := 0x35

/-! Advertising types accepted by the scan-result handler (lines 177-182). -/

def _ADV_IND : Nat := 0x00

def _ADV_DIRECT_IND : Nat := 0x01

def _ADV_SCAN_RSP : Nat := 0x04

/-! Module configuration constants, at their values in the source
(lines 102-137). -/

def AUTO_MODE : Bool := true

def _DISCOVER_SERVICES : Bool := false

def _DISCOVER_CHARACTERISTICS : Bool := false

/-- Functions the code stores in the `_scan_callback` slot: the driver's own
`scan_done` method (installed by the demo loops) or an external callback,
which owns no driver state and is modelled as inert. -/
inductive ScanCb
  | scanDoneCb
  | userScanCb (id : Nat)
deriving DecidableEq

/-- External zero-argument callbacks for the `_conn_callback`,
`_serv_done_callback` and `_char_done_callback` slots.  Under the default
auto-mode configuration the driver itself never installs its own methods
there, so only inert external callbacks are modelled. -/
inductive PlainCb
  | userPlainCb (id : Nat)
deriving DecidableEq

/-- Functions stored in the `_read_callback` slot: the driver's
`read_firmware_done` / `read_sensor_done` methods (installed by auto mode)
or an inert external callback. -/
inductive ReadCb
  | readFirmwareDoneCb
  | readSensorDoneCb
  | userReadCb (id : Nat)
deriving DecidableEq

/-- Functions stored in the `_write_callback` slot: the driver's
`mode_change_done` method or an inert external callback. -/
inductive WriteCb
  | modeChangeDoneCb
  | userWriteCb (id : Nat)
deriving DecidableEq

/-- The persistent `_notify_callback` slot only ever holds an external
callback (set through `on_notify`); it is modelled as inert. -/
inductive NotifyCb
  | userNotifyCb (id : Nat)
deriving DecidableEq

/-- Requests issued to the external `ubluetooth.BLE` host stack.  Arguments
mirror what the source passes (`self._conn_handle` etc. may be `None`). -/
inductive HostReq
  | gapScanStart
  | gapScanStop
  | gapConnect (addr_type : Nat) (addr : List Nat)
  | gapDisconnect (conn_handle : Nat)
  | discoverServices (conn_handle : Option Nat)
  | discoverCharacteristics (conn_handle : Option Nat) (start_handle end_handle : Nat)
  | gattcRead (conn_handle value_handle : Option Nat)
  | gattcWrite (conn_handle value_handle : Option Nat) (data : List Nat) (mode : Nat)
deriving DecidableEq

/-- A callback invocation, recorded with the arguments the code passes. -/
inductive CbInvoke
  | scanInv (addr_type : Option Nat) (addr : Option (List Nat)) (name : Option String)
  | connInv
  | servInv
  | charInv
  | readInv (data : List Nat)
  | writeInv
  | notifyInv (data : List Nat)
deriving DecidableEq

/-- One entry of the effect trace of a dispatcher step or API call. -/
inductive Eff
  | req (r : HostReq)
  | invoke (c : CbInvoke)
deriving DecidableEq

/-- The driver instance: exactly the attributes initialised by
`MiFlora._reset` (lines 261-299) plus the `services` / `characteristics`
dictionaries and `search_service` that the source creates elsewhere and
never resets (modelled as always-present, initially empty/None). -/
structure MiFlora where
  state : Nat
  search_addr : Option (List Nat)
  search_service : Option Nat
  addr_found : Bool
  name : Option String
  rssi : Int
  version : Option String
  battery : Option Nat
  temp : Option Rat
  light : Option Nat
  moist : Option Nat
  cond : Option Int
  services : List (Nat × Nat × Nat)
  characteristics : List (Nat × Nat × Nat × Nat)
  _addr_type : Option Nat
  _addr : Option (List Nat)
  _value : Option (List Nat)
  _scan_callback : Option ScanCb
  _conn_callback : Option PlainCb
  _serv_done_callback : Option PlainCb
  _char_done_callback : Option PlainCb
  _read_callback : Option ReadCb
  _write_callback : Option WriteCb
  _notify_callback : Option NotifyCb
  _conn_handle : Option Nat
  _start_handle : Option Nat
  _end_handle : Option Nat
  _value_handle : Option Nat
deriving DecidableEq

/-- `MiFlora._reset` (lines 261-299): reinitialise every attribute listed
there; `services`, `characteristics` and `search_service` are not touched. -/
def resetFields (m : MiFlora) : MiFlora :=
  { m with
    state := _S_INIT, search_addr := none, addr_found := false, name := none, rssi := 0,
    version := none, battery := none, temp := none, light := none, moist := none, cond := none,
    _addr_type := none, _addr := none, _value := none,
    _scan_callback := none, _conn_callback := none, _serv_done_callback := none,
    _char_done_callback := none, _read_callback := none, _write_callback := none,
    _notify_callback := none,
    _conn_handle := none, _start_handle := none, _end_handle := none, _value_handle := none }

/-- A freshly constructed driver (constructor calls `_reset`). -/
def initState : MiFlora :=
  { state := _S_INIT, search_addr := none, search_service := none, addr_found := false,
    name := none, rssi := 0, version := none, battery := none, temp := none, light := none,
    moist := none, cond := none, services := [], characteristics := [],
    _addr_type := none, _addr := none, _value := none,
    _scan_callback := none, _conn_callback := none, _serv_done_callback := none,
    _char_done_callback := none, _read_callback := none, _write_callback := none,
    _notify_callback := none, _conn_handle := none, _start_handle := none,
    _end_handle := none, _value_handle := none }

/-- Python dictionary update `d[k] = v` on an association list. -/
def dictSet {α : Type} (d : List (Nat × α)) (k : Nat) (v : α) : List (Nat × α) :=
  match d with
  | [] => [(k, v)]
  | (k0, v0) :: rest => if k0 = k then (k, v) :: rest else (k0, v0) :: dictSet rest k v

/-- Python slice `l[a:b]` (never raises, clamps to the list length). -/
def pySlice (l : List Nat) (a b : Nat) : List Nat :=
  (l.take b).drop a

/-- Reinterpret an unsigned 16-bit value as signed (two's complement). -/
def toS16 (n : Nat) : Int :=
  if n < 32768 then (n : Int) else (n : Int) - 65536

/-- `struct.unpack("<h", bs)`: little-endian signed 16-bit; raises
`struct.error` unless the buffer holds exactly 2 bytes. -/
def unpack_h (bs : List Nat) : Option Int :=
  match bs with
  | [b0, b1] => some (toS16 (b0 + 256 * b1))
  | _ => none

/-- `struct.unpack("<I", bs)`: little-endian unsigned 32-bit; raises
`struct.error` unless the buffer holds exactly 4 bytes. -/
def unpack_I (bs : List Nat) : Option Nat :=
  match bs with
  | [b0, b1, b2, b3] => some (b0 + 256 * b1 + 65536 * b2 + 16777216 * b3)
  | _ => none

/-- `struct.unpack("<B", bs)`: unsigned byte; raises `struct.error` unless
the buffer holds exactly 1 byte. -/
def unpack_B (bs : List Nat) : Option Nat :=
  match bs with
  | [b0] => some b0
  | _ => none

/-- The string built from a list of ASCII byte values. -/
def asciiOfBytes (bs : List Nat) : String :=
  String.mk (bs.map (fun b => Char.ofNat b))

/-- `str(bs, 'UTF-8')`, modelled on the ASCII subset: succeeds iff every
byte is below 0x80 (all firmware version payloads are ASCII; multi-byte
UTF-8 sequences are not exercised by this driver). -/
def asciiDecode (bs : List Nat) : Option String :=
  if bs.all (fun b => b < 128) then some (asciiOfBytes bs) else none

/-- `MiFlora.scan_done` (lines 690-703): default scan callback; ignores its
arguments and records that the scan finished. -/
def scan_done (m : MiFlora) (_t : Option Nat) (_a : Option (List Nat))
    (_n : Option String) : MiFlora :=
  { m with state := _S_SCAN_DONE }

/-- `MiFlora.read_firmware_done` (lines 705-718): `data[0]` raises
IndexError on an empty payload; otherwise `battery` is assigned, then
`version` is built from `data[2:7]` (Python slicing never raises, so a
short payload yields a short version string) and the state advances. -/
def read_firmware_done (m : MiFlora) (data : List Nat) : MiFlora × Option PyErr :=
  match data with
  | [] => (m, some PyErr.indexError)
  | b :: _ =>
    let m1 := { m with battery := some b }
    match asciiDecode (pySlice data 2 7) with
    | some s => ({ m1 with version := some s, state := _S_READ_FIRMWARE_DONE }, none)
    | none => (m1, some PyErr.unicodeError)

/-- `MiFlora.mode_change_done` (lines 720-725). -/
def mode_change_done (m : MiFlora) : MiFlora :=
  { m with state := _S_MODE_CHANGE_DONE }

/-- `MiFlora.read_sensor_done` (lines 727-750): four `struct.unpack` calls
on fixed slices, all evaluated before any field is assigned, so a short
payload raises `struct.error` without touching any reading. -/
def read_sensor_done (m : MiFlora) (data : List Nat) : MiFlora × Option PyErr :=
  match unpack_h (pySlice data 0 2) with
  | none => (m, some PyErr.structError)
  | some tempRaw =>
    match unpack_I (pySlice data 3 7) with
    | none => (m, some PyErr.structError)
    | some lightVal =>
      match unpack_B (pySlice data 7 8) with
      | none => (m, some PyErr.structError)
      | some moistVal =>
        match unpack_h (pySlice data 8 10) with
        | none => (m, some PyErr.structError)
        | some condVal =>
          ({ m with
              temp := some ((tempRaw : Rat) / 10),
              light := some lightVal,
              moist := some moistVal,
              cond := some condVal,
              state := _S_READ_SENSOR_DONE }, none)

/-- Run a callback stored in the scan slot (invoked with three arguments). -/
def runScanCb (cb : ScanCb) (m : MiFlora) (t : Option Nat) (a : Option (List Nat))
    (n : Option String) : MiFlora :=
  match cb with
  | .scanDoneCb => scan_done m t a n
  | .userScanCb _ => m

/-- Run an external zero-argument callback (inert on the driver state). -/
def runPlainCb (cb : PlainCb) (m : MiFlora) : MiFlora :=
  match cb with
  | .userPlainCb _ => m

/-- Run a callback stored in the write slot. -/
def runWriteCb (cb : WriteCb) (m : MiFlora) : MiFlora :=
  match cb with
  | .modeChangeDoneCb => mode_change_done m
  | .userWriteCb _ => m

/-- Run a callback stored in the read slot (invoked with the payload);
the driver's own decoders may raise. -/
def runReadCb (cb : ReadCb) (m : MiFlora) (data : List Nat) : MiFlora × Option PyErr :=
  match cb with
  | .readFirmwareDoneCb => read_firmware_done m data
  | .readSensorDoneCb => read_sensor_done m data
  | .userReadCb _ => (m, none)

/-- `MiFlora.is_connected` (lines 755-763). -/
def is_connected (m : MiFlora) : Bool :=
  m._conn_handle.isSome

/-- Python truthiness of an optional integer (`None` and `0` are falsy). -/
def pyTruthy (o : Option Nat) : Bool :=
  match o with
  | none => false
  | some n => n != 0

/-- Python truthiness of an optional byte string: `None` and the empty
bytes object are both falsy. -/
def pyTruthyBytes (o : Option (List Nat)) : Bool :=
  match o with
  | some (_ :: _) => true
  | _ => false

/-- `MiFlora.scan` (lines 493-509): clear the cached address, store the
callback and start a GAP scan (an `OSError` from the host stack is
swallowed, so the state mutations always take effect). -/
def scan (m : MiFlora) (callback : Option ScanCb) : MiFlora × List Eff :=
  ({ m with _addr_type := none, _addr := none, _scan_callback := callback },
   [Eff.req HostReq.gapScanStart])

/-- `MiFlora.gap_connect` (lines 511-543).  If both parameters are given
they override the cached address.  If afterwards either is still `None`,
the code calls `self.debug(...)` -- a method that does not exist on the
class (only `_debug` does) -- so an `AttributeError` is raised before the
`return False` statement is reached.  Otherwise the GAP connect request is
issued and `True` is returned. -/
def gap_connect (m : MiFlora) (addr_type : Option Nat) (addr : Option (List Nat))
    (callback : Option PlainCb) : MiFlora × List Eff × Except PyErr Bool :=
  let m1 := if addr_type.isSome && addr.isSome then
      { m with _addr_type := addr_type, _addr := addr } else m
  let m2 := { m1 with _conn_callback := callback }
  match m2._addr_type, m2._addr with
  | some t, some a => (m2, [Eff.req (HostReq.gapConnect t a)], Except.ok true)
  | _, _ => (m2, [], Except.error PyErr.attributeError)

/-- `MiFlora.disconnect` (lines 545-556): `if not self._conn_handle: return`
treats both `None` and `0` as falsy; only a non-zero present handle leads
to the GAP disconnect and the full `_reset`. -/
def disconnect (m : MiFlora) : MiFlora × List Eff :=
  if pyTruthy m._conn_handle then
    (resetFields m, [Eff.req (HostReq.gapDisconnect (m._conn_handle.getD 0))])
  else
    (m, [])

/-- `MiFlora.discover_services` (lines 558-578): `services` is cleared even
when not connected; the request is only issued when connected. -/
def discover_services (m : MiFlora) (callback : Option PlainCb) : MiFlora × List Eff :=
  let m1 := { m with services := [] }
  if is_connected m1 then
    ({ m1 with _serv_done_callback := callback },
     [Eff.req (HostReq.discoverServices m1._conn_handle)])
  else
    (m1, [])

/-- `MiFlora.discover_characteristics` (lines 580-601). -/
def discover_characteristics (m : MiFlora) (start_handle end_handle : Nat)
    (callback : Option PlainCb) : MiFlora × List Eff :=
  let m1 := { m with characteristics := [] }
  if is_connected m1 then
    ({ m1 with _char_done_callback := callback },
     [Eff.req (HostReq.discoverCharacteristics m1._conn_handle start_handle end_handle)])
  else
    (m1, [])

/-- `MiFlora.read_firmware` (lines 623-643): requires `is_connected`; the
callback and value handle are stored before the read request is issued. -/
def read_firmware (m : MiFlora) (callback : Option ReadCb) : MiFlora × List Eff :=
  if is_connected m then
    let m1 := { m with _read_callback := callback,
                       _value_handle := some _HANDLE_READ_VERSION_BATTERY }
    (m1, [Eff.req (HostReq.gattcRead m1._conn_handle m1._value_handle)])
  else
    (m, [])

/-- `MiFlora.mode_change` (lines 645-663): note the source has no
`is_connected` guard here. -/
def mode_change (m : MiFlora) (callback : Option WriteCb) : MiFlora × List Eff :=
  let m1 := { m with _write_callback := callback,
                     _value_handle := some _HANDLE_WRITE_MODE_CHANGE }
  (m1, [Eff.req (HostReq.gattcWrite m1._conn_handle m1._value_handle _DATA_MODE_CHANGE 1)])

/-- `MiFlora.read_sensor` (lines 665-685). -/
def read_sensor (m : MiFlora) (callback : Option ReadCb) : MiFlora × List Eff :=
  if is_connected m then
    let m1 := { m with _read_callback := callback,
                       _value_handle := some _HANDLE_READ_SENSOR_DATA }
    (m1, [Eff.req (HostReq.gattcRead m1._conn_handle m1._value_handle)])
  else
    (m, [])

/-- Host-stack events delivered to `MiFlora._irq`, with the data tuple each
handler unpacks.  The advertising payload of a scan result is abstracted to
its decoded device name (`decode_name(adv_data) or "?"` uses the external
`ble_advertising` helper; `none` models the name decoding to `"?"`). -/
inductive Event
  | scanResult (addr_type : Nat) (addr : List Nat) (adv_type : Nat) (rssi : Int)
      (adv_name : Option String)
  | scanDone
  | periphConnect (conn_handle addr_type : Nat) (addr : List Nat)
  | periphDisconnect (conn_handle : Nat)
  | serviceResult (conn_handle start_handle end_handle uuid : Nat)
  | serviceDone (conn_handle status : Nat)
  | charResult (conn_handle def_handle value_handle properties uuid : Nat)
  | charDone (conn_handle status : Nat)
  | readResult (conn_handle value_handle : Nat) (char_data : List Nat)
  | readDone (conn_handle value_handle status : Nat)
  | writeDone (conn_handle value_handle status : Nat)
  | notify (conn_handle value_handle : Nat) (notify_data : List Nat)
deriving DecidableEq

/-- `MiFlora._irq` (lines 312-489): one dispatcher step.  Returns the new
driver state, the ordered trace of host requests and callback invocations,
and the exception escaping the handler, if any (exceptions raised inside a
callback are not contained by the dispatcher; state mutated before the
raise stays mutated). -/
def irqStep (m : MiFlora) (e : Event) : MiFlora × List Eff × Option PyErr :=
  match e with
  | .scanResult addr_type addr adv_type rssi adv_name =>
    -- lines 324-360
    if (adv_type = _ADV_IND ∨ adv_type = _ADV_DIRECT_IND ∨ adv_type = _ADV_SCAN_RSP)
        ∧ some addr = m.search_addr then
      let m1 := { m with _addr_type := some addr_type, rssi := rssi,
                         addr_found := true, _addr := some addr }
      let m2 := match adv_name with
        | some n => { m1 with name := some n }
        | none => m1
      (m2, [Eff.req HostReq.gapScanStop], none)
    else
      (m, [], none)
  | .scanDone =>
    -- lines 363-374; `if self._addr:` is Python bytes truthiness, so a
    -- present but empty address also takes the timed-out branch
    match m._scan_callback with
    | none => (m, [], none)
    | some cb =>
      match m._addr with
      | some (b :: bs) =>
        -- device found (non-empty address): invoke, clear, then (auto mode) connect
        let m1 := runScanCb cb m m._addr_type (some (b :: bs)) m.name
        let m2 := { m1 with _scan_callback := none }
        if AUTO_MODE then
          let (m3, effs, r) := gap_connect m2 m2._addr_type m2._addr none
          (m3, Eff.invoke (CbInvoke.scanInv m._addr_type (some (b :: bs)) m.name) :: effs,
           match r with | Except.ok _ => none | Except.error err => some err)
        else
          (m2, [Eff.invoke (CbInvoke.scanInv m._addr_type (some (b :: bs)) m.name)], none)
      | _ =>
        -- `self._addr` is None or b'': scan timed out: invoke with the
        -- empty result; the slot is NOT cleared (source line 374)
        let m1 := runScanCb cb m none none none
        (m1, [Eff.invoke (CbInvoke.scanInv none none none)], none)
  | .periphConnect conn_handle addr_type addr =>
    -- lines 376-389
    if some addr_type = m._addr_type ∧ some addr = m._addr then
      let m1 := { m with _conn_handle := some conn_handle }
      let (m2, effs1) := match m1._conn_callback with
        | some cb => ({ runPlainCb cb m1 with _conn_callback := none },
                      [Eff.invoke CbInvoke.connInv])
        | none => (m1, [])
      if AUTO_MODE then
        let (m3, effs2) :=
          if _DISCOVER_SERVICES then discover_services m2 none
          else read_firmware m2 (some ReadCb.readFirmwareDoneCb)
        (m3, effs1 ++ effs2, none)
      else
        (m2, effs1, none)
    else
      (m, [], none)
  | .periphDisconnect conn_handle =>
    -- lines 391-396
    if some conn_handle = m._conn_handle then
      (resetFields m, [], none)
    else
      (m, [], none)
  | .serviceResult conn_handle start_handle end_handle uuid =>
    -- lines 398-409
    if some conn_handle = m._conn_handle then
      let m1 := { m with services := dictSet m.services uuid (start_handle, end_handle) }
      if some uuid = m.search_service then
        ({ m1 with _start_handle := some start_handle, _end_handle := some end_handle },
         [], none)
      else
        (m1, [], none)
    else
      (m, [], none)
  | .serviceDone _ _ =>
    -- lines 411-427: the state is set unconditionally, before any check
    let m1 := { m with state := _S_SERVICE_DONE }
    let (m2, effs1) := match m1._serv_done_callback with
      | some cb => ({ runPlainCb cb m1 with _serv_done_callback := none },
                    [Eff.invoke CbInvoke.servInv])
      | none => (m1, [])
    if AUTO_MODE then
      let (m3, effs2) :=
        if _DISCOVER_CHARACTERISTICS then
          if pyTruthy m2._start_handle && pyTruthy m2._end_handle then
            discover_characteristics m2 (m2._start_handle.getD 0) (m2._end_handle.getD 0) none
          else
            (m2, [])
        else
          read_firmware m2 (some ReadCb.readFirmwareDoneCb)
      (m3, effs1 ++ effs2, none)
    else
      (m2, effs1, none)
  | .charResult conn_handle def_handle value_handle properties uuid =>
    -- lines 429-438
    if some conn_handle = m._conn_handle then
      ({ m with characteristics :=
          dictSet m.characteristics uuid (def_handle, value_handle, properties) }, [], none)
    else
      (m, [], none)
  | .charDone _ _ =>
    -- lines 440-448: the state is set unconditionally, before any check
    let m1 := { m with state := _S_CHARACTERISTIC_DONE }
    let (m2, effs1) := match m1._char_done_callback with
      | some cb => ({ runPlainCb cb m1 with _char_done_callback := none },
                    [Eff.invoke CbInvoke.charInv])
      | none => (m1, [])
    if AUTO_MODE then
      let (m3, effs2) := read_firmware m2 (some ReadCb.readFirmwareDoneCb)
      (m3, effs1 ++ effs2, none)
    else
      (m2, effs1, none)
  | .readResult conn_handle value_handle char_data =>
    -- lines 450-458: both handles are checked; the callback is cleared
    -- only after it returned normally
    if some conn_handle = m._conn_handle ∧ some value_handle = m._value_handle then
      let m1 := { m with _value := some char_data }
      match m1._read_callback with
      | some cb =>
        let (m2, err) := runReadCb cb m1 char_data
        match err with
        | some e => (m2, [Eff.invoke (CbInvoke.readInv char_data)], some e)
        | none => ({ m2 with _read_callback := none },
                   [Eff.invoke (CbInvoke.readInv char_data)], none)
      | none => (m1, [], none)
    else
      (m, [], none)
  | .readDone _ _ _ =>
    -- lines 460-465: the handles carried by the event are NOT compared
    -- against the tracked ones
    if AUTO_MODE ∧ m.state = _S_READ_FIRMWARE_DONE then
      let (m1, effs) := mode_change m (some WriteCb.modeChangeDoneCb)
      (m1, effs, none)
    else
      (m, [], none)
  | .writeDone conn_handle value_handle _ =>
    -- lines 467-479
    if some conn_handle = m._conn_handle ∧ some value_handle = m._value_handle then
      let (m1, effs1) := match m._write_callback with
        | some cb => ({ runWriteCb cb m with _write_callback := none },
                      [Eff.invoke CbInvoke.writeInv])
        | none => (m, [])
      if AUTO_MODE ∧ m1.state = _S_MODE_CHANGE_DONE then
        let (m2, effs2) := read_sensor m1 (some ReadCb.readSensorDoneCb)
        (m2, effs1 ++ effs2, none)
      else
        (m1, effs1, none)
    else
      (m, [], none)
  | .notify conn_handle value_handle notify_data =>
    -- lines 481-488: the persistent callback is not cleared
    if some conn_handle = m._conn_handle ∧ some value_handle = m._value_handle then
      let m1 := { m with _value := some notify_data }
      match m1._notify_callback with
      | some (NotifyCb.userNotifyCb _) =>
        (m1, [Eff.invoke (CbInvoke.notifyInv notify_data)], none)
      | none => (m1, [], none)
    else
      (m, [], none)

/-- `MiFlora.wait_for` (lines 787-806), polling at `_T_WAIT = 100` ms on a
monotonic clock.  `stateAt k` is the value of `self.state` observed at the
k-th poll (interrupts may change it between polls); the deadline is checked
before each poll, so poll `k` happens iff `100 * k < timeout_ms`. -/
def waitForFrom (stateAt : Nat → Nat) (target : Nat) (timeout_ms : Int) (k : Nat) : Bool :=
  if h : 100 * (k : Int) < timeout_ms then
    if stateAt k = target then true
    else waitForFrom stateAt target timeout_ms (k + 1)
  else
    false
termination_by (timeout_ms - 100 * (k : Int)).toNat
decreasing_by omega

/-- `MiFlora.wait_for` entry point: start polling at elapsed time 0. -/
def wait_for (stateAt : Nat → Nat) (target : Nat) (timeout_ms : Int) : Bool :=
  waitForFrom stateAt target timeout_ms 0

/-! ### Helper lemmas about the payload decoders -/

theorem exists_cons10 (l : List Nat) (h : 10 ≤ l.length) :
    ∃ b0 b1 b2 b3 b4 b5 b6 b7 b8 b9 t,
      l = b0 :: b1 :: b2 :: b3 :: b4 :: b5 :: b6 :: b7 :: b8 :: b9 :: t := by
  rcases l with _ | ⟨b0, l⟩; · simp at h
  rcases l with _ | ⟨b1, l⟩; · simp at h
  rcases l with _ | ⟨b2, l⟩; · simp at h
  rcases l with _ | ⟨b3, l⟩; · simp at h
  rcases l with _ | ⟨b4, l⟩; · simp at h
  rcases l with _ | ⟨b5, l⟩; · simp at h
  rcases l with _ | ⟨b6, l⟩; · simp at h
  rcases l with _ | ⟨b7, l⟩; · simp at h
  rcases l with _ | ⟨b8, l⟩; · simp at h
  rcases l with _ | ⟨b9, l⟩; · simp at h
  exact ⟨b0, b1, b2, b3, b4, b5, b6, b7, b8, b9, l, rfl⟩

theorem read_sensor_done_of_long (m : MiFlora) (data : List Nat) (h : 10 ≤ data.length) :
    read_sensor_done m data =
      ({ m with
          temp := some ((toS16 (data.getD 0 0 + 256 * data.getD 1 0) : Rat) / 10),
          light := some (data.getD 3 0 + 256 * data.getD 4 0 + 65536 * data.getD 5 0
            + 16777216 * data.getD 6 0),
          moist := some (data.getD 7 0),
          cond := some (toS16 (data.getD 8 0 + 256 * data.getD 9 0)),
          state := _S_READ_SENSOR_DONE }, none) := by
  obtain ⟨b0, b1, b2, b3, b4, b5, b6, b7, b8, b9, t, rfl⟩ := exists_cons10 data h
  rfl

theorem read_sensor_done_of_short (m : MiFlora) (data : List Nat) (h : data.length < 10) :
    read_sensor_done m data = (m, some PyErr.structError) := by
  rcases data with _ | ⟨a0, data⟩; · rfl
  rcases data with _ | ⟨a1, data⟩; · rfl
  rcases data with _ | ⟨a2, data⟩; · rfl
  rcases data with _ | ⟨a3, data⟩; · rfl
  rcases data with _ | ⟨a4, data⟩; · rfl
  rcases data with _ | ⟨a5, data⟩; · rfl
  rcases data with _ | ⟨a6, data⟩; · rfl
  rcases data with _ | ⟨a7, data⟩; · rfl
  rcases data with _ | ⟨a8, data⟩; · rfl
  rcases data with _ | ⟨a9, data⟩; · rfl
  exfalso
  simp only [List.length_cons] at h
  omega

theorem read_firmware_done_nil (m : MiFlora) :
    read_firmware_done m [] = (m, some PyErr.indexError) := rfl

theorem read_firmware_done_cons_battery (m : MiFlora) (b : Nat) (rest : List Nat) :
    ((read_firmware_done m (b :: rest)).1).battery = some b := by
  cases hA : asciiDecode (pySlice (b :: rest) 2 7) <;>
    simp [read_firmware_done, hA]

theorem read_firmware_done_of_long (m : MiFlora) (data : List Nat) (h7 : 7 ≤ data.length)
    (hascii : (pySlice data 2 7).all (fun b => b < 128) = true) :
    (pySlice data 2 7).length = 5 ∧
    read_firmware_done m data =
      ({ m with battery := some (data.getD 0 0),
                version := some (asciiOfBytes (pySlice data 2 7)),
                state := _S_READ_FIRMWARE_DONE }, none) := by
  obtain ⟨b0, t, rfl⟩ : ∃ b0 t, data = b0 :: t := by
    rcases data with _ | ⟨b0, t⟩
    · simp at h7
    · exact ⟨b0, t, rfl⟩
  constructor
  · simp only [pySlice, List.length_drop, List.length_take, List.length_cons]
    simp only [List.length_cons] at h7
    omega
  · simp [read_firmware_done, asciiDecode, hascii]

/-! ### C4: sensor payload decoding -/

/-- C4: decoding a sensor payload of at least 10 bytes interprets bytes 0-1
as little-endian signed 16-bit temperature tenths (reported divided by 10),
bytes 3-6 as little-endian unsigned 32-bit light, byte 7 as moisture
percent, bytes 8-9 as little-endian signed 16-bit conductivity, and sets
the state to `_S_READ_SENSOR_DONE`; no other field changes. -/
theorem read_sensor_done_layout (m : MiFlora) (data : List Nat) (h : 10 ≤ data.length) :
    read_sensor_done m data =
      ({ m with
          temp := some ((toS16 (data.getD 0 0 + 256 * data.getD 1 0) : Rat) / 10),
          light := some (data.getD 3 0 + 256 * data.getD 4 0 + 65536 * data.getD 5 0
            + 16777216 * data.getD 6 0),
          moist := some (data.getD 7 0),
          cond := some (toS16 (data.getD 8 0 + 256 * data.getD 9 0)),
          state := _S_READ_SENSOR_DONE }, none) :=
  read_sensor_done_of_long m data h

/-- The concrete sensor payload from the spec. -/
def sensorBytes : List Nat := [0x64, 0x00, 0x00, 0x0A, 0x00, 0x00, 0x00, 0x2D, 0x0F, 0x00]

/-- C4 witness: the spec bytes decode to temperature 10.0, light 10,
moisture 45, conductivity 15, state `_S_READ_SENSOR_DONE`. -/
theorem read_sensor_done_layout_witness :
    10 ≤ sensorBytes.length ∧
    read_sensor_done initState sensorBytes =
      ({ initState with temp := some 10, light := some 10, moist := some 45,
                        cond := some 15, state := _S_READ_SENSOR_DONE }, none) := by
  refine ⟨by decide, ?_⟩
  rw [read_sensor_done_layout initState sensorBytes (by decide)]
  norm_num [sensorBytes, toS16]

/-! ### C5: firmware/battery payload decoding -/

/-- C5: decoding a firmware/battery payload of at least 7 bytes sets
`battery` to byte 0 and `version` to the 5-character string built from
bytes 2-6, and advances the state to `_S_READ_FIRMWARE_DONE` (stated for
ASCII version payloads, the only ones the device produces). -/
theorem read_firmware_done_layout (m : MiFlora) (data : List Nat) (h7 : 7 ≤ data.length)
    (hascii : (pySlice data 2 7).all (fun b => b < 128) = true) :
    (pySlice data 2 7).length = 5 ∧
    read_firmware_done m data =
      ({ m with battery := some (data.getD 0 0),
                version := some (asciiOfBytes (pySlice data 2 7)),
                state := _S_READ_FIRMWARE_DONE }, none) :=
  read_firmware_done_of_long m data h7 hascii

/-- The concrete firmware/battery payload from the spec. -/
def firmwareBytes : List Nat := [55, 0, 0x33, 0x2E, 0x32, 0x2E, 0x32]

/-- C5 witness: the spec bytes decode to battery 55 and version "3.2.2",
and the state becomes `_S_READ_FIRMWARE_DONE`. -/
theorem read_firmware_done_layout_witness :
    7 ≤ firmwareBytes.length ∧
    (pySlice firmwareBytes 2 7).all (fun b => b < 128) = true ∧
    read_firmware_done initState firmwareBytes =
      ({ initState with battery := some 55, version := some "3.2.2",
                        state := _S_READ_FIRMWARE_DONE }, none) := by
  refine ⟨by decide, by decide, ?_⟩
  rw [(read_firmware_done_layout initState firmwareBytes (by decide) (by decide)).2]
  decide

/-! ### C6: short payloads -/

/-- C6 (amended): the sensor decode is all-or-nothing -- every payload
shorter than 10 bytes raises `struct.error` with no field changed; the
firmware decode leaves the record unchanged only for the empty payload,
while any non-empty payload (however short) already updates `battery` from
byte 0. -/
theorem decode_short_payload (m : MiFlora) (data : List Nat) (h : data.length < 10)
    (b : Nat) (rest : List Nat) :
    read_sensor_done m data = (m, some PyErr.structError) ∧
    read_firmware_done m [] = (m, some PyErr.indexError) ∧
    ((read_firmware_done m (b :: rest)).1).battery = some b :=
  ⟨read_sensor_done_of_short m data h, read_firmware_done_nil m,
   read_firmware_done_cons_battery m b rest⟩

/-- A driver with previously stored readings, used to exhibit what short
payloads do to them. -/
def mPrior : MiFlora :=
  { initState with battery := some 99, version := some "1.1.1", temp := some 5,
                   light := some 4, moist := some 3, cond := some 2 }

/-- C6 witness: a 5-byte sensor buffer fails with `struct.error` leaving
the prior readings untouched; the empty firmware payload likewise; a
non-empty firmware payload updates `battery`. -/
theorem decode_short_payload_witness :
    ([1, 2, 3, 4, 5] : List Nat).length < 10 ∧
    (read_sensor_done mPrior [1, 2, 3, 4, 5] = (mPrior, some PyErr.structError) ∧
     read_firmware_done mPrior [] = (mPrior, some PyErr.indexError) ∧
     ((read_firmware_done mPrior [55]).1).battery = some 55) :=
  ⟨by decide, decode_short_payload mPrior [1, 2, 3, 4, 5] (by decide) 55 []⟩

/-- C6 counterexample: the claim says a firmware payload shorter than 7
bytes is a decode error that leaves every reading field unchanged; but the
1-byte payload `[55]` is decoded without error, `battery` is overwritten
(99 becomes 55), `version` becomes the empty string and the state advances
to `_S_READ_FIRMWARE_DONE`. -/
theorem firmware_short_partial_update_counterexample :
    (read_firmware_done mPrior [55]).2 = none ∧
    ((read_firmware_done mPrior [55]).1).battery = some 55 ∧
    ((read_firmware_done mPrior [55]).1).battery ≠ some 99 ∧
    ((read_firmware_done mPrior [55]).1).version = some "" ∧
    ((read_firmware_done mPrior [55]).1).state = _S_READ_FIRMWARE_DONE := by
  refine ⟨rfl, rfl, by decide, rfl, rfl⟩

/-! ### C7: gap_connect with no address -/

/-- C7: calling `gap_connect` with both parameters absent while no address
is cached does not issue a host-stack connect request, but it does NOT
return `False`: the error branch evaluates `self.debug(...)`, a method that
does not exist on the class (only `_debug` does), so an `AttributeError`
escapes before the `return False` line -- contradicting the docstring of
`gap_connect` ("Returns: ... False otherwise"). -/
theorem gap_connect_no_addr_raises :
    gap_connect initState none none none =
      (initState, [], Except.error PyErr.attributeError) := rfl

/-! ### C8: the timeout poller -/

theorem waitForFrom_true_iff (stateAt : Nat → Nat) (target : Nat) (timeout_ms : Int)
    (k : Nat) :
    waitForFrom stateAt target timeout_ms k = true ↔
      ∃ j, k ≤ j ∧ 100 * (j : Int) < timeout_ms ∧ stateAt j = target := by
  unfold waitForFrom
  split
  case isTrue h =>
    by_cases hs : stateAt k = target
    · rw [if_pos hs]
      simp only [true_iff]
      exact ⟨k, le_refl k, h, hs⟩
    · rw [if_neg hs, waitForFrom_true_iff stateAt target timeout_ms (k + 1)]
      constructor
      · rintro ⟨j, hkj, hj, hjs⟩
        exact ⟨j, by omega, hj, hjs⟩
      · rintro ⟨j, hkj, hj, hjs⟩
        refine ⟨j, ?_, hj, hjs⟩
        have hne : k ≠ j := fun hh => hs (hh ▸ hjs)
        omega
  case isFalse h =>
    simp only [Bool.false_eq_true, false_iff, not_exists]
    rintro j ⟨hkj, hj, _⟩
    have hcast : (k : Int) ≤ (j : Int) := by exact_mod_cast hkj
    omega
termination_by (timeout_ms - 100 * (k : Int)).toNat
decreasing_by omega

/-- C8: `wait_for` polls `self.state` at the fixed 100 ms interval on a
monotonic clock, the deadline being checked before each poll: it returns
true exactly when the state equals the target at some poll strictly before
the deadline, and returns false (without raising -- the function is total)
once the deadline elapses first; in particular every `timeout_ms ≤ 0`, even
with the state already equal to the target, terminates returning false. -/
theorem wait_for_true_iff (stateAt : Nat → Nat) (target : Nat) (timeout_ms : Int) :
    (wait_for stateAt target timeout_ms = true ↔
      ∃ k : Nat, 100 * (k : Int) < timeout_ms ∧ stateAt k = target) ∧
    (timeout_ms ≤ 0 → wait_for stateAt target timeout_ms = false) := by
  constructor
  · rw [wait_for, waitForFrom_true_iff]
    constructor
    · rintro ⟨j, _, hj, hjs⟩
      exact ⟨j, hj, hjs⟩
    · rintro ⟨j, hj, hjs⟩
      exact ⟨j, Nat.zero_le j, hj, hjs⟩
  · intro hto
    cases hw : wait_for stateAt target timeout_ms
    · rfl
    · exfalso
      rw [wait_for] at hw
      obtain ⟨j, _, hj, _⟩ := (waitForFrom_true_iff stateAt target timeout_ms 0).mp hw
      have : (0 : Int) ≤ 100 * (j : Int) := by positivity
      omega

/-- C8 witness: with the state constantly equal to the target but a zero
timeout, `wait_for` terminates and returns false. -/
theorem wait_for_true_iff_witness :
    wait_for (fun _ => 5) 5 0 = false :=
  (wait_for_true_iff (fun _ => 5) 5 0).2 (le_refl 0)

/-! ### C10: disconnect with a zero connection handle -/

/-- C10: `disconnect` treats the stored handle with Python truthiness
(`if not self._conn_handle: return`), so a present handle equal to 0 --
for which `is_connected()` is True -- returns immediately: no host-stack
`gap_disconnect` call and every attribute unchanged.  The full reset plus
`gap_disconnect` happens exactly when the handle is present and
non-zero. -/
theorem disconnect_zero_handle (m : MiFlora) :
    (m._conn_handle = some 0 → disconnect m = (m, []) ∧ is_connected m = true) ∧
    (m._conn_handle = none → disconnect m = (m, [])) ∧
    (∀ h, m._conn_handle = some h → h ≠ 0 →
      disconnect m = (resetFields m, [Eff.req (HostReq.gapDisconnect h)])) := by
  refine ⟨fun hc => ⟨?_, ?_⟩, fun hc => ?_, fun h hc hnz => ?_⟩
  · simp [disconnect, pyTruthy, hc]
  · simp [is_connected, hc]
  · simp [disconnect, pyTruthy, hc]
  · simp [disconnect, pyTruthy, hc, hnz]

/-- A connected driver whose handle happens to be 0. -/
def m10a : MiFlora := { initState with _conn_handle := some 0, battery := some 7 }

/-- A connected driver with a non-zero handle. -/
def m10b : MiFlora := { initState with _conn_handle := some 3 }

/-- C10 witness: with handle 0 `disconnect` is a no-op while
`is_connected` reports true; with handle 3 the full reset happens. -/
theorem disconnect_zero_handle_witness :
    (disconnect m10a = (m10a, []) ∧ is_connected m10a = true) ∧
    disconnect m10b = (resetFields m10b, [Eff.req (HostReq.gapDisconnect 3)]) :=
  ⟨(disconnect_zero_handle m10a).1 rfl,
   (disconnect_zero_handle m10b).2.2 3 rfl (by decide)⟩

/-! ### C2: events with mismatched handles -/

/-- The events whose handler compares the handles carried in the event data
against the tracked `_conn_handle` / `_value_handle`, together with the
mismatch condition under which the handler body is skipped. -/
def handleMismatch (m : MiFlora) (e : Event) : Bool :=
  match e with
  | .periphDisconnect ch => !(some ch == m._conn_handle)
  | .serviceResult ch _ _ _ => !(some ch == m._conn_handle)
  | .charResult ch _ _ _ _ => !(some ch == m._conn_handle)
  | .readResult ch vh _ => !(some ch == m._conn_handle && some vh == m._value_handle)
  | .writeDone ch vh _ => !(some ch == m._conn_handle && some vh == m._value_handle)
  | .notify ch vh _ => !(some ch == m._conn_handle && some vh == m._value_handle)
  | _ => false

/-- C2 (amended): for every event whose handler actually checks its
handles (disconnect, service/characteristic results, read result, write
done, notify), a mismatch leaves the driver record completely unchanged,
invokes no callback and issues no host-stack request.  The completion
events `_IRQ_GATTC_READ_DONE`, `_IRQ_GATTC_SERVICE_DONE` and
`_IRQ_GATTC_CHARACTERISTIC_DONE` ignore the handles carried in their data,
so they are not covered (see the counterexample). -/
theorem mismatch_discard (m : MiFlora) (e : Event) (hmis : handleMismatch m e = true) :
    irqStep m e = (m, [], none) := by
  cases e with
  | scanResult a b c d f => simp [handleMismatch] at hmis
  | scanDone => simp [handleMismatch] at hmis
  | periphConnect a b c => simp [handleMismatch] at hmis
  | serviceDone a b => simp [handleMismatch] at hmis
  | charDone a b => simp [handleMismatch] at hmis
  | readDone a b c => simp [handleMismatch] at hmis
  | periphDisconnect ch =>
    simp only [handleMismatch, Bool.not_eq_true', beq_eq_false_iff_ne, ne_eq] at hmis
    simp [irqStep, hmis]
  | serviceResult ch sh eh u =>
    simp only [handleMismatch, Bool.not_eq_true', beq_eq_false_iff_ne, ne_eq] at hmis
    simp [irqStep, hmis]
  | charResult ch dh vh pr u =>
    simp only [handleMismatch, Bool.not_eq_true', beq_eq_false_iff_ne, ne_eq] at hmis
    simp [irqStep, hmis]
  | readResult ch vh d =>
    simp only [handleMismatch, Bool.not_eq_true', Bool.and_eq_false_iff,
      beq_eq_false_iff_ne, ne_eq] at hmis
    rw [irqStep, if_neg (by tauto)]
  | writeDone ch vh s =>
    simp only [handleMismatch, Bool.not_eq_true', Bool.and_eq_false_iff,
      beq_eq_false_iff_ne, ne_eq] at hmis
    rw [irqStep, if_neg (by tauto)]
  | notify ch vh d =>
    simp only [handleMismatch, Bool.not_eq_true', Bool.and_eq_false_iff,
      beq_eq_false_iff_ne, ne_eq] at hmis
    rw [irqStep, if_neg (by tauto)]

/-- A connected driver with an in-flight firmware read. -/
def m2w : MiFlora :=
  { initState with _conn_handle := some 1, _value_handle := some _HANDLE_READ_VERSION_BATTERY }

/-- C2 witness: a read result carrying foreign handles is discarded with no
state change, no callback and no host request. -/
theorem mismatch_discard_witness :
    handleMismatch m2w (Event.readResult 2 3 [1]) = true ∧
    irqStep m2w (Event.readResult 2 3 [1]) = (m2w, [], none) :=
  ⟨by decide, mismatch_discard m2w (Event.readResult 2 3 [1]) (by decide)⟩

/-- A connected driver that has just decoded the firmware payload
(state `_S_READ_FIRMWARE_DONE`, auto mode). -/
def m2c : MiFlora :=
  { initState with state := _S_READ_FIRMWARE_DONE, _conn_handle := some 5,
                   _value_handle := some _HANDLE_READ_VERSION_BATTERY }

/-- C2 counterexample: the claim includes `_IRQ_GATTC_READ_DONE`, but its
handler never compares the handles in the event data: a read-done event
carrying foreign handles (6 and 7 against tracked 5 and 0x38) still issues
the mode-change `gattc_write` host request and overwrites `_value_handle`
and `_write_callback`. -/
theorem read_done_mismatch_counterexample :
    (irqStep m2c (Event.readDone 6 7 0)).2.1 =
      [Eff.req (HostReq.gattcWrite (some 5) (some _HANDLE_WRITE_MODE_CHANGE)
        _DATA_MODE_CHANGE 1)] ∧
    ((irqStep m2c (Event.readDone 6 7 0)).1)._value_handle =
      some _HANDLE_WRITE_MODE_CHANGE ∧
    ((irqStep m2c (Event.readDone 6 7 0)).1)._write_callback =
      some WriteCb.modeChangeDoneCb ∧
    ¬ some 6 = m2c._conn_handle ∧ ¬ some 7 = m2c._value_handle := by
  refine ⟨rfl, rfl, rfl, by decide, by decide⟩

/-! ### C9: the ScanDone event -/

/-- C9 (amended): the `_IRQ_SCAN_DONE` handler acts only through the
registered scan callback.  With no callback registered the event does
nothing at all (no connect, state unchanged).  With the default `scan_done`
callback registered and a non-empty identity captured (`if self._addr:` is
Python bytes truthiness), the callback is invoked once with that identity,
the slot is cleared, auto mode initiates the connect to the captured
address, and the state becomes `_S_SCAN_DONE` -- because the callback sets
it, not the dispatcher.  A present but empty captured address behaves like
no capture: the callback is invoked with the empty result and the slot is
kept. -/
theorem scan_done_behavior (m : MiFlora) (t : Nat) (a : List Nat) :
    (m._scan_callback = none → irqStep m Event.scanDone = (m, [], none)) ∧
    (m._scan_callback = some ScanCb.scanDoneCb → m._addr_type = some t →
      m._addr = some a → a ≠ [] →
      irqStep m Event.scanDone =
        ({ m with state := _S_SCAN_DONE, _scan_callback := none, _conn_callback := none },
         [Eff.invoke (CbInvoke.scanInv (some t) (some a) m.name),
          Eff.req (HostReq.gapConnect t a)], none)) ∧
    (m._scan_callback = some ScanCb.scanDoneCb → m._addr = some [] →
      irqStep m Event.scanDone =
        ({ m with state := _S_SCAN_DONE },
         [Eff.invoke (CbInvoke.scanInv none none none)], none)) := by
  obtain ⟨st, sa, ss, af, nm, rs, ver, bat, tp, lt, ms, cd, sv, chs, at_, ad, vl, scb,
    ccb, svcb, chcb, rcb, wcb, ncb, cnh, sth, enh, vlh⟩ := m
  refine ⟨?_, ?_, ?_⟩
  · intro hcb
    dsimp only at hcb
    subst hcb
    rfl
  · intro hcb ht ha hne
    dsimp only at hcb ht ha
    subst hcb; subst ht; subst ha
    rcases a with _ | ⟨b, bs⟩
    · exact absurd rfl hne
    · rfl
  · intro hcb ha
    dsimp only at hcb ha
    subst hcb; subst ha
    rfl

/-- A driver that captured an identity during the scan but has no scan
callback registered. -/
def m9a : MiFlora :=
  { initState with _addr_type := some 0, _addr := some [1, 2, 3, 4, 5, 6],
                   addr_found := true }

/-- Like `m9a` but with the default scan callback registered. -/
def m9b : MiFlora := { m9a with _scan_callback := some ScanCb.scanDoneCb }

/-- Like `m9b` but with a present yet empty captured address (reachable via
`gap_connect` called with an empty bytes address during a pending scan). -/
def m9d : MiFlora :=
  { initState with _addr_type := some 0, _addr := some ([] : List Nat),
                   _scan_callback := some ScanCb.scanDoneCb }

/-- C9 witness: with no callback the event is a no-op; with the default
callback and a non-empty captured address it invokes it once, connects and
reaches `_S_SCAN_DONE`; with an empty captured address it takes the
timed-out branch. -/
theorem scan_done_behavior_witness :
    irqStep m9a Event.scanDone = (m9a, [], none) ∧
    irqStep m9b Event.scanDone =
      ({ m9b with state := _S_SCAN_DONE, _scan_callback := none, _conn_callback := none },
       [Eff.invoke (CbInvoke.scanInv (some 0) (some [1, 2, 3, 4, 5, 6]) m9b.name),
        Eff.req (HostReq.gapConnect 0 [1, 2, 3, 4, 5, 6])], none) ∧
    irqStep m9d Event.scanDone =
      ({ m9d with state := _S_SCAN_DONE },
       [Eff.invoke (CbInvoke.scanInv none none none)], none) :=
  ⟨(scan_done_behavior m9a 0 []).1 rfl,
   (scan_done_behavior m9b 0 [1, 2, 3, 4, 5, 6]).2.1 rfl rfl rfl (by decide),
   (scan_done_behavior m9d 0 []).2.2 rfl rfl⟩

/-- C9 counterexample: the claim says that on every ScanDone event,
regardless of which callback (if any) was registered, a captured identity
leads to a connect and the state becomes ScanDone.  With a captured
identity but no registered callback the dispatcher issues no request,
invokes nothing and the state stays `_S_INIT`. -/
theorem scan_done_no_callback_counterexample :
    (irqStep m9a Event.scanDone).2.1 = [] ∧
    ((irqStep m9a Event.scanDone).1).state = _S_INIT ∧
    _S_INIT ≠ _S_SCAN_DONE := by
  refine ⟨rfl, rfl, by decide⟩

/-! ### C3: one-shot callback slots -/

/-- Trace predicate: an invocation of the connect callback slot. -/
def isConnInvEff : Eff → Bool
  | .invoke CbInvoke.connInv => true
  | _ => false

/-- Trace predicate: an invocation of the service-done callback slot. -/
def isServInvEff : Eff → Bool
  | .invoke CbInvoke.servInv => true
  | _ => false

/-- Trace predicate: an invocation of the characteristic-done callback slot. -/
def isCharInvEff : Eff → Bool
  | .invoke CbInvoke.charInv => true
  | _ => false

/-- Trace predicate: an invocation of the read callback slot. -/
def isReadInvEff : Eff → Bool
  | .invoke (CbInvoke.readInv _) => true
  | _ => false

/-- Trace predicate: an invocation of the write callback slot. -/
def isWriteInvEff : Eff → Bool
  | .invoke CbInvoke.writeInv => true
  | _ => false

/-- Trace predicate: an invocation of the scan callback slot. -/
def isScanInvEff : Eff → Bool
  | .invoke (CbInvoke.scanInv _ _ _) => true
  | _ => false

/-- C3 (amended): the dispatcher clears each one-shot slot immediately
AFTER the stored callback returns (not before invoking it), so after any
event that completed without an exception, every one-shot slot whose
callback was invoked reads empty -- except the scan slot in the
`_IRQ_SCAN_DONE` branch where no device was found, which is invoked but
never cleared.  That branch is taken whenever `self._addr` is Python-falsy,
i.e. `None` or the empty bytes object, hence the
`pyTruthyBytes m._addr = true` proviso on the scan conjunct (see the
counterexample). -/
theorem oneshot_cleared_after_invoke (m : MiFlora) (e : Event)
    (hok : (irqStep m e).2.2 = none) :
    ((irqStep m e).2.1.any isConnInvEff = true →
      ((irqStep m e).1)._conn_callback = none) ∧
    ((irqStep m e).2.1.any isServInvEff = true →
      ((irqStep m e).1)._serv_done_callback = none) ∧
    ((irqStep m e).2.1.any isCharInvEff = true →
      ((irqStep m e).1)._char_done_callback = none) ∧
    ((irqStep m e).2.1.any isReadInvEff = true →
      ((irqStep m e).1)._read_callback = none) ∧
    ((irqStep m e).2.1.any isWriteInvEff = true →
      ((irqStep m e).1)._write_callback = none) ∧
    (pyTruthyBytes m._addr = true → (irqStep m e).2.1.any isScanInvEff = true →
      ((irqStep m e).1)._scan_callback = none) := by
  cases e with
  | scanResult a b c d f =>
    simp only [irqStep]
    split
    · cases f <;>
        simp [isConnInvEff, isServInvEff, isCharInvEff, isReadInvEff, isWriteInvEff,
          isScanInvEff]
    · simp [isConnInvEff, isServInvEff, isCharInvEff, isReadInvEff, isWriteInvEff,
        isScanInvEff]
  | scanDone =>
    rcases hcb : m._scan_callback with _ | cb
    · simp [irqStep, hcb]
    · rcases ha : m._addr with _ | a
      · simp [irqStep, hcb, ha, pyTruthyBytes, isConnInvEff, isServInvEff, isCharInvEff,
          isReadInvEff, isWriteInvEff, isScanInvEff]
      · rcases a with _ | ⟨b, bs⟩
        · -- present but empty address: timed-out branch, proviso false
          simp [irqStep, hcb, ha, pyTruthyBytes, isConnInvEff, isServInvEff, isCharInvEff,
            isReadInvEff, isWriteInvEff, isScanInvEff]
        · rcases hat : m._addr_type with _ | t
          · exfalso
            cases cb <;>
              simp [irqStep, hcb, ha, hat, runScanCb, scan_done, AUTO_MODE,
                gap_connect] at hok
          · cases cb <;>
              simp [irqStep, hcb, ha, hat, runScanCb, scan_done, AUTO_MODE, gap_connect,
                pyTruthyBytes, isConnInvEff, isServInvEff, isCharInvEff, isReadInvEff,
                isWriteInvEff, isScanInvEff]
  | periphConnect ch aty ad =>
    simp only [irqStep]
    split
    · rcases hcc : m._conn_callback with _ | cb
      · simp [hcc, AUTO_MODE, _DISCOVER_SERVICES, read_firmware, is_connected,
          isConnInvEff, isServInvEff, isCharInvEff, isReadInvEff, isWriteInvEff,
          isScanInvEff]
      · cases cb with
        | userPlainCb n =>
          simp [hcc, AUTO_MODE, _DISCOVER_SERVICES, read_firmware, is_connected,
            runPlainCb, isConnInvEff, isServInvEff, isCharInvEff, isReadInvEff,
            isWriteInvEff, isScanInvEff]
    · simp
  | periphDisconnect ch =>
    simp only [irqStep]
    split <;> simp [resetFields]
  | serviceResult ch sh eh u =>
    simp only [irqStep]
    split
    · split <;> simp
    · simp
  | charResult ch dh vh pr u =>
    simp only [irqStep]
    split <;> simp
  | serviceDone ch s =>
    rcases hsc : m._serv_done_callback with _ | cb
    · rcases hch : m._conn_handle with _ | h <;>
        simp [irqStep, hsc, hch, AUTO_MODE, _DISCOVER_CHARACTERISTICS, read_firmware,
          is_connected, isConnInvEff, isServInvEff, isCharInvEff, isReadInvEff,
          isWriteInvEff, isScanInvEff]
    · cases cb with
      | userPlainCb n =>
        rcases hch : m._conn_handle with _ | h <;>
          simp [irqStep, hsc, hch, AUTO_MODE, _DISCOVER_CHARACTERISTICS, read_firmware,
            is_connected, runPlainCb, isConnInvEff, isServInvEff, isCharInvEff,
            isReadInvEff, isWriteInvEff, isScanInvEff]
  | charDone ch s =>
    rcases hsc : m._char_done_callback with _ | cb
    · rcases hch : m._conn_handle with _ | h <;>
        simp [irqStep, hsc, hch, AUTO_MODE, read_firmware, is_connected,
          isConnInvEff, isServInvEff, isCharInvEff, isReadInvEff, isWriteInvEff,
          isScanInvEff]
    · cases cb with
      | userPlainCb n =>
        rcases hch : m._conn_handle with _ | h <;>
          simp [irqStep, hsc, hch, AUTO_MODE, read_firmware, is_connected, runPlainCb,
            isConnInvEff, isServInvEff, isCharInvEff, isReadInvEff, isWriteInvEff,
            isScanInvEff]
  | readResult ch vh d =>
    by_cases hcond : some ch = m._conn_handle ∧ some vh = m._value_handle
    · rcases hrc : m._read_callback with _ | cb
      · simp [irqStep, hcond, hrc]
      · cases cb with
        | readFirmwareDoneCb =>
          rcases d with _ | ⟨b, rest⟩
          · exfalso
            simp [irqStep, hcond, hrc, runReadCb, read_firmware_done] at hok
          · rcases hA : asciiDecode (pySlice (b :: rest) 2 7) with _ | s
            · exfalso
              simp [irqStep, hcond, hrc, runReadCb, read_firmware_done, hA] at hok
            · simp [irqStep, hcond, hrc, runReadCb, read_firmware_done, hA, isConnInvEff,
                isServInvEff, isCharInvEff, isReadInvEff, isWriteInvEff, isScanInvEff]
        | readSensorDoneCb =>
          rcases Nat.lt_or_ge d.length 10 with hlen | hlen
          · exfalso
            simp [irqStep, hcond, hrc, runReadCb, read_sensor_done_of_short, hlen] at hok
          · simp [irqStep, hcond, hrc, runReadCb, read_sensor_done_of_long, hlen,
              isConnInvEff, isServInvEff, isCharInvEff, isReadInvEff, isWriteInvEff,
              isScanInvEff]
        | userReadCb n =>
          simp [irqStep, hcond, hrc, runReadCb, isConnInvEff, isServInvEff, isCharInvEff,
            isReadInvEff, isWriteInvEff, isScanInvEff]
    · simp [irqStep, hcond]
  | readDone ch vh s =>
    simp only [irqStep]
    split
    · simp [mode_change, isConnInvEff, isServInvEff, isCharInvEff, isReadInvEff,
        isWriteInvEff, isScanInvEff]
    · simp
  | writeDone ch vh s =>
    simp only [irqStep]
    split
    · rcases hwc : m._write_callback with _ | cb
      · simp only [hwc]
        split
        · rcases hch : m._conn_handle with _ | hh <;>
            simp [hch, read_sensor, is_connected, isConnInvEff, isServInvEff,
              isCharInvEff, isReadInvEff, isWriteInvEff, isScanInvEff]
        · simp [isConnInvEff, isServInvEff, isCharInvEff, isReadInvEff, isWriteInvEff,
            isScanInvEff]
      · cases cb <;>
        · simp only [hwc]
          split
          · rcases hch : m._conn_handle with _ | hh <;>
              simp [hch, read_sensor, is_connected, runWriteCb, mode_change_done,
                isConnInvEff, isServInvEff, isCharInvEff, isReadInvEff, isWriteInvEff,
                isScanInvEff]
          · simp [runWriteCb, mode_change_done, isConnInvEff, isServInvEff, isCharInvEff,
              isReadInvEff, isWriteInvEff, isScanInvEff]
    · simp
  | notify ch vh d =>
    simp only [irqStep]
    split
    · rcases hnc : m._notify_callback with _ | cb
      · simp [hnc]
      · cases cb with
        | userNotifyCb n =>
          simp [hnc, isConnInvEff, isServInvEff, isCharInvEff, isReadInvEff,
            isWriteInvEff, isScanInvEff]
    · simp

/-- A driver with an external characteristic-done callback registered. -/
def m3w : MiFlora := { initState with _char_done_callback := some (PlainCb.userPlainCb 0) }

/-- C3 witness: a characteristic-done event invokes the registered callback
and afterwards the slot reads empty. -/
theorem oneshot_cleared_after_invoke_witness :
    ((irqStep m3w (Event.charDone 0 0)).2.1.any isConnInvEff = true →
      ((irqStep m3w (Event.charDone 0 0)).1)._conn_callback = none) ∧
    ((irqStep m3w (Event.charDone 0 0)).2.1.any isServInvEff = true →
      ((irqStep m3w (Event.charDone 0 0)).1)._serv_done_callback = none) ∧
    ((irqStep m3w (Event.charDone 0 0)).2.1.any isCharInvEff = true →
      ((irqStep m3w (Event.charDone 0 0)).1)._char_done_callback = none) ∧
    ((irqStep m3w (Event.charDone 0 0)).2.1.any isReadInvEff = true →
      ((irqStep m3w (Event.charDone 0 0)).1)._read_callback = none) ∧
    ((irqStep m3w (Event.charDone 0 0)).2.1.any isWriteInvEff = true →
      ((irqStep m3w (Event.charDone 0 0)).1)._write_callback = none) ∧
    (pyTruthyBytes m3w._addr = true →
      (irqStep m3w (Event.charDone 0 0)).2.1.any isScanInvEff = true →
      ((irqStep m3w (Event.charDone 0 0)).1)._scan_callback = none) :=
  oneshot_cleared_after_invoke m3w (Event.charDone 0 0) rfl

/-- A driver waiting on a scan that will time out (external callback,
no identity captured). -/
def m3c : MiFlora := { initState with _scan_callback := some (ScanCb.userScanCb 7) }

/-- C3 counterexample: the claim says the slot is cleared before invocation
and reads empty after any event that invokes it, including the empty-result
`_IRQ_SCAN_DONE` branch.  In that branch the callback is invoked but the
slot still holds it afterwards, and an immediately following second
ScanDone event invokes it again -- not at-most-once delivery. -/
theorem scan_timeout_not_cleared_counterexample :
    (irqStep m3c Event.scanDone).2.1 = [Eff.invoke (CbInvoke.scanInv none none none)] ∧
    ((irqStep m3c Event.scanDone).1)._scan_callback = some (ScanCb.userScanCb 7) ∧
    (irqStep ((irqStep m3c Event.scanDone).1) Event.scanDone).2.1 =
      [Eff.invoke (CbInvoke.scanInv none none none)] :=
  ⟨rfl, rfl, rfl⟩

/-! ### C1: evolution of the session state -/

/-- The exact value of `state` after dispatching one event: every handler
either leaves the state alone or writes a fixed target value that does not
depend on the current state.  The completion events ServiceDone and
CharacteristicDone write unconditionally; ScanDone writes through the
default `scan_done` callback; ReadResult writes through the installed
decoder callback when the decode succeeds; WriteDone writes through the
default `mode_change_done` callback; a matching disconnect resets to
`_S_INIT`.  Nothing enforces monotonicity. -/
def expectedState (m : MiFlora) (e : Event) : Nat :=
  match e with
  | .scanResult _ _ _ _ _ => m.state
  | .scanDone =>
    match m._scan_callback with
    | some ScanCb.scanDoneCb => _S_SCAN_DONE
    | _ => m.state
  | .periphConnect _ _ _ => m.state
  | .periphDisconnect ch => if some ch = m._conn_handle then _S_INIT else m.state
  | .serviceResult _ _ _ _ => m.state
  | .serviceDone _ _ => _S_SERVICE_DONE
  | .charResult _ _ _ _ _ => m.state
  | .charDone _ _ => _S_CHARACTERISTIC_DONE
  | .readResult ch vh data =>
    if some ch = m._conn_handle ∧ some vh = m._value_handle then
      match m._read_callback with
      | some ReadCb.readFirmwareDoneCb =>
        match data with
        | [] => m.state
        | _ :: _ =>
          if (asciiDecode (pySlice data 2 7)).isSome then _S_READ_FIRMWARE_DONE
          else m.state
      | some ReadCb.readSensorDoneCb =>
        if 10 ≤ data.length then _S_READ_SENSOR_DONE else m.state
      | _ => m.state
    else m.state
  | .readDone _ _ _ => m.state
  | .writeDone ch vh _ =>
    if (some ch = m._conn_handle ∧ some vh = m._value_handle)
        ∧ m._write_callback = some WriteCb.modeChangeDoneCb then
      _S_MODE_CHANGE_DONE
    else m.state
  | .notify _ _ _ => m.state

/-- C1 (amended): the state after any event is exactly `expectedState`:
each handler writes a fixed state value independent of the current one (or
leaves the state untouched).  In particular the session state is NOT
non-decreasing: a late ServiceDone or CharacteristicDone overwrites a
larger state with 2 or 3 (see the counterexample). -/
theorem irq_state_characterization (m : MiFlora) (e : Event) :
    ((irqStep m e).1).state = expectedState m e := by
  cases e with
  | scanResult a b c d f =>
    simp only [irqStep, expectedState]
    split
    · cases f <;> simp
    · simp
  | scanDone =>
    rcases hcb : m._scan_callback with _ | cb
    · simp [irqStep, expectedState, hcb]
    · cases cb with
      | scanDoneCb =>
        rcases ha : m._addr with _ | a
        · simp [irqStep, expectedState, hcb, ha, runScanCb, scan_done]
        · rcases a with _ | ⟨b, bs⟩
          · simp [irqStep, expectedState, hcb, ha, runScanCb, scan_done]
          · rcases hat : m._addr_type with _ | t <;>
              simp [irqStep, expectedState, hcb, ha, hat, runScanCb, scan_done, AUTO_MODE,
                gap_connect]
      | userScanCb n =>
        rcases ha : m._addr with _ | a
        · simp [irqStep, expectedState, hcb, ha, runScanCb]
        · rcases a with _ | ⟨b, bs⟩
          · simp [irqStep, expectedState, hcb, ha, runScanCb]
          · rcases hat : m._addr_type with _ | t <;>
              simp [irqStep, expectedState, hcb, ha, hat, runScanCb, AUTO_MODE,
                gap_connect]
  | periphConnect ch aty ad =>
    simp only [irqStep, expectedState]
    split
    · rcases hcc : m._conn_callback with _ | cb
      · simp [hcc, AUTO_MODE, _DISCOVER_SERVICES, read_firmware, is_connected]
      · cases cb with
        | userPlainCb n =>
          simp [hcc, AUTO_MODE, _DISCOVER_SERVICES, read_firmware, is_connected,
            runPlainCb]
    · rfl
  | periphDisconnect ch =>
    simp only [irqStep, expectedState]
    split <;> simp [resetFields, _S_INIT]
  | serviceResult ch sh eh u =>
    simp only [irqStep, expectedState]
    split
    · split <;> rfl
    · rfl
  | serviceDone ch s =>
    rcases hsc : m._serv_done_callback with _ | cb
    · rcases hch : m._conn_handle with _ | h <;>
        simp [irqStep, expectedState, hsc, hch, AUTO_MODE, _DISCOVER_CHARACTERISTICS,
          read_firmware, is_connected]
    · cases cb with
      | userPlainCb n =>
        rcases hch : m._conn_handle with _ | h <;>
          simp [irqStep, expectedState, hsc, hch, AUTO_MODE, _DISCOVER_CHARACTERISTICS,
            read_firmware, is_connected, runPlainCb]
  | charResult ch dh vh pr u =>
    simp only [irqStep, expectedState]
    split <;> rfl
  | charDone ch s =>
    rcases hsc : m._char_done_callback with _ | cb
    · rcases hch : m._conn_handle with _ | h <;>
        simp [irqStep, expectedState, hsc, hch, AUTO_MODE, read_firmware, is_connected]
    · cases cb with
      | userPlainCb n =>
        rcases hch : m._conn_handle with _ | h <;>
          simp [irqStep, expectedState, hsc, hch, AUTO_MODE, read_firmware, is_connected,
            runPlainCb]
  | readResult ch vh d =>
    by_cases hcond : some ch = m._conn_handle ∧ some vh = m._value_handle
    · rcases hrc : m._read_callback with _ | cb
      · simp [irqStep, expectedState, hcond, hrc]
      · cases cb with
        | readFirmwareDoneCb =>
          rcases d with _ | ⟨b, rest⟩
          · simp [irqStep, expectedState, hcond, hrc, runReadCb, read_firmware_done]
          · rcases hA : asciiDecode (pySlice (b :: rest) 2 7) with _ | str <;>
              simp [irqStep, expectedState, hcond, hrc, runReadCb, read_firmware_done, hA]
        | readSensorDoneCb =>
          rcases Nat.lt_or_ge d.length 10 with hlen | hlen
          · simp [irqStep, expectedState, hcond, hrc, runReadCb,
              read_sensor_done_of_short, hlen, Nat.not_le_of_lt]
          · simp [irqStep, expectedState, hcond, hrc, runReadCb, read_sensor_done_of_long,
              hlen]
        | userReadCb n =>
          simp [irqStep, expectedState, hcond, hrc, runReadCb]
    · simp [irqStep, expectedState, hcond]
  | readDone ch vh s =>
    simp only [irqStep, expectedState]
    split
    · simp [mode_change]
    · rfl
  | writeDone ch vh s =>
    by_cases hcond : some ch = m._conn_handle ∧ some vh = m._value_handle
    · rcases hwc : m._write_callback with _ | cb
      · rcases hch : m._conn_handle with _ | hh <;>
          by_cases hst : m.state = _S_MODE_CHANGE_DONE <;>
            simp [irqStep, expectedState, hcond, hwc, hch, hst, read_sensor, is_connected,
              AUTO_MODE]
      · cases cb with
        | modeChangeDoneCb =>
          rcases hch : m._conn_handle with _ | hh <;>
            simp [irqStep, expectedState, hcond, hwc, hch, read_sensor, is_connected,
              runWriteCb, mode_change_done, AUTO_MODE]
        | userWriteCb n =>
          rcases hch : m._conn_handle with _ | hh <;>
            by_cases hst : m.state = _S_MODE_CHANGE_DONE <;>
              simp [irqStep, expectedState, hcond, hwc, hch, hst, read_sensor,
                is_connected, runWriteCb, AUTO_MODE]
    · simp [irqStep, expectedState, hcond]
  | notify ch vh d =>
    simp only [irqStep, expectedState]
    split
    · rcases hnc : m._notify_callback with _ | cb
      · simp [hnc]
      · cases cb with
        | userNotifyCb n => simp [hnc]
    · rfl

/-- C1 counterexample: from a fresh driver, a CharacteristicDone event sets
the state to 3, and a following ServiceDone event -- with no disconnect in
between and no exception raised -- overwrites it with 2: the session state
strictly decreases, which the claim says can never happen. -/
theorem irq_state_regress_counterexample :
    ((irqStep initState (Event.charDone 0 0)).1).state = _S_CHARACTERISTIC_DONE ∧
    (irqStep initState (Event.charDone 0 0)).2.2 = none ∧
    ((irqStep ((irqStep initState (Event.charDone 0 0)).1)
        (Event.serviceDone 0 0)).1).state = _S_SERVICE_DONE ∧
    (irqStep ((irqStep initState (Event.charDone 0 0)).1)
        (Event.serviceDone 0 0)).2.2 = none ∧
    _S_SERVICE_DONE < _S_CHARACTERISTIC_DONE :=
  ⟨rfl, rfl, rfl, rfl, by decide⟩

end Miflora

